import Mathlib

/-!
Verification of the profiling, chart-recommendation and chart-rendering core
of `src/src/routes/data_analysis.py` (functions `analyze_data` and
`generate_chart`), via a shallow embedding of the pandas data frame
operations that those functions perform.

A data frame (`Table`) is a sequence of named columns; each column carries
the pandas dtype that the loaders (`read_csv` / `read_excel` / `read_json`)
would assign, and a list of cells, where `none` models a NaN/null cell.
The dtypes reachable through those loaders are `int64`, `float64`, `object`
and `bool`; `Dtype.boolean` models the `bool` dtype (a column of True/False
values parsed by `read_csv`), which belongs to neither
`select_dtypes(include=[np.number])` nor `select_dtypes(include=['object'])`.
-/

inductive Dtype where
  | int64
  | float64
  | obj
  | boolean
deriving DecidableEq

/-- A non-missing cell value: a number, a string, or a boolean. -/
inductive Val where
  | num (q : ℚ)
  | vstr (s : String)
  | vbool (b : Bool)
deriving DecidableEq

structure Col where
  name : String
  dtype : Dtype
  cells : List (Option Val)
deriving DecidableEq

structure Table where
  cols : List Col
deriving DecidableEq

/-- The column labels of the data frame, `df.columns`. -/
def Table.names (df : Table) : List String := df.cols.map Col.name

/-- Cell list of the column named `c` (`df[c]`); `[]` when no such column. -/
def Table.cellsOf (df : Table) (c : String) : List (Option Val) :=
  ((df.cols.find? (fun col => col.name == c)).map Col.cells).getD []

/-- Number of null cells, `df[col].isnull().sum()`. -/
def countMissing (cells : List (Option Val)) : Nat :=
  cells.countP (fun o => o.isNone)

/-- The non-missing cell values, in order. -/
def nonMissing (cells : List (Option Val)) : List Val :=
  cells.filterMap id

/-- Number of distinct non-missing values, `df[col].nunique()`. -/
def nuniqueCells (cells : List (Option Val)) : Nat :=
  (nonMissing cells).dedup.length

def nuniqueCol (df : Table) (c : String) : Nat :=
  nuniqueCells (df.cellsOf c)

def valNum : Val → Option ℚ
  | .num q => some q
  | _ => none

/-- Numeric values of a column's non-missing cells. -/
def numValsOf (cells : List (Option Val)) : List ℚ :=
  cells.filterMap (fun o => o.bind valNum)

/-- Whether a dtype is selected by `select_dtypes(include=[np.number])`. -/
def isNumberDtype : Dtype → Bool
  | .int64 => true
  | .float64 => true
  | _ => false

/-- Line 63: `numeric_cols = df.select_dtypes(include=[np.number]).columns.tolist()`. -/
def numericCols (df : Table) : List String :=
  (df.cols.filter (fun c => isNumberDtype c.dtype)).map Col.name

/-- Line 64: `categorical_cols = df.select_dtypes(include=['object']).columns.tolist()`. -/
def categoricalCols (df : Table) : List String :=
  (df.cols.filter (fun c => c.dtype == Dtype.obj)).map Col.name

/-- Pandas `df[col].min()` over non-missing values; `none` models the NaN
returned for an empty / all-missing column. -/
def dfMin (vals : List ℚ) : Option ℚ :=
  match vals with
  | [] => none
  | v :: vs => some (vs.foldl min v)

def dfMax (vals : List ℚ) : Option ℚ :=
  match vals with
  | [] => none
  | v :: vs => some (vs.foldl max v)

def dfMean (vals : List ℚ) : Option ℚ :=
  match vals with
  | [] => none
  | _ :: _ => some (vals.sum / (vals.length : ℚ))

/-- Pandas `df[col].std()` (sample standard deviation, `ddof=1`) over the
non-missing values; NaN — modelled as `none` — when fewer than two values. -/
noncomputable def dfStd (vals : List ℚ) : Option ℝ :=
  if vals.length ≤ 1 then none
  else
    some (Real.sqrt
      ((((vals.map (fun v => (v - vals.sum / (vals.length : ℚ)) ^ 2)).sum /
          ((vals.length : ℚ) - 1) : ℚ) : ℝ)))

structure NumStats where
  min : Option ℚ
  max : Option ℚ
  mean : Option ℚ
  std : Option ℝ

def dtypeStr : Dtype → String
  | .int64 => "int64"
  | .float64 => "float64"
  | .obj => "object"
  | .boolean => "bool"

/-- Per-column entry of `analysis['columns']` (lines 45-60): always carries
dtype string, missing count and unique count; the `min`/`max`/`mean`/`std`
block is added only when the dtype is `int64` or `float64` (line 52). -/
structure ColInfo where
  type : String
  missing : Nat
  unique_values : Nat
  stats : Option NumStats

noncomputable def colInfoOf (c : Col) : ColInfo :=
  { type := dtypeStr c.dtype
    missing := countMissing c.cells
    unique_values := nuniqueCells c.cells
    stats :=
      if c.dtype = Dtype.int64 ∨ c.dtype = Dtype.float64 then
        some
          { min := dfMin (numValsOf c.cells)
            max := dfMax (numValsOf c.cells)
            mean := dfMean (numValsOf c.cells)
            std := dfStd (numValsOf c.cells) }
      else none }

/-- Number of rows, `len(df)`. -/
def rowCount (df : Table) : Nat :=
  match df.cols with
  | [] => 0
  | c :: _ => c.cells.length

structure Summary where
  rows : Nat
  columns : Nat
  missing_values : Nat
  data_types : List (String × String)

/-- Lines 37-42: the `analysis['summary']` block; `missing_values` is
`df.isnull().sum().sum()`, the sum over columns of per-column null counts. -/
def summaryOf (df : Table) : Summary :=
  { rows := rowCount df
    columns := df.cols.length
    missing_values := (df.cols.map (fun c => countMissing c.cells)).sum
    data_types := df.cols.map (fun c => (c.name, dtypeStr c.dtype)) }

noncomputable def columnsOf (df : Table) : List (String × ColInfo) :=
  df.cols.map (fun c => (c.name, colInfoOf c))

/-- A suggested chart, a dict with `type`, `title` and the column bindings
that the given type uses (absent keys modelled as `none`). -/
structure Suggestion where
  type : String
  title : String
  column : Option String
  x_column : Option String
  y_column : Option String
  columns : Option (List String)
deriving DecidableEq

def scatterS (a b : String) : Suggestion :=
  ⟨"scatter", "Scatter Plot: " ++ a ++ " vs " ++ b, none, some a, some b, none⟩

def heatmapS (cols : List String) : Suggestion :=
  ⟨"correlation_heatmap", "Correlation Heatmap", none, none, none, some cols⟩

def lineS (a b : String) : Suggestion :=
  ⟨"line", "Line Plot: " ++ a ++ " vs " ++ b, none, some a, some b, none⟩

def areaS (a b : String) : Suggestion :=
  ⟨"area", "Area Plot: " ++ a ++ " vs " ++ b, none, some a, some b, none⟩

def histS (c : String) : Suggestion :=
  ⟨"histogram", "Distribution of " ++ c, some c, none, none, none⟩

def barS (c : String) : Suggestion :=
  ⟨"bar", "Count by " ++ c, some c, none, none, none⟩

def pieS (c : String) : Suggestion :=
  ⟨"pie", "Proportion by " ++ c, some c, none, none, none⟩

def boxS (cat numc : String) : Suggestion :=
  ⟨"box", numc ++ " by " ++ cat, none, some cat, some numc, none⟩

/-- Lines 66-126: the sequence of `analysis['suggested_charts'].append(...)`
statements, in source order.  List indexing `numeric_cols[0]` is modelled by
`getD` and is always guarded by the same length test as in the source. -/
def suggestedCharts (df : Table) : List Suggestion :=
  let num := numericCols df
  let cat := categoricalCols df
  let c1 : List Suggestion :=
    if 2 ≤ num.length then
      [scatterS (num.getD 0 "") (num.getD 1 ""), heatmapS num,
       lineS (num.getD 0 "") (num.getD 1 ""), areaS (num.getD 0 "") (num.getD 1 "")]
    else []
  let c2 := if 1 ≤ num.length then c1 ++ (num.take 3).map histS else c1
  let c3 :=
    if 1 ≤ cat.length then
      let cb := c2 ++ ((cat.take 2).filter (fun c => nuniqueCol df c ≤ 20)).map barS
      if nuniqueCol df (cat.getD 0 "") ≤ 10 then cb ++ [pieS (cat.getD 0 "")] else cb
    else c2
  if 1 ≤ cat.length ∧ 1 ≤ num.length then
    c3 ++ [boxS (cat.getD 0 "") (num.getD 0 "")]
  else c3

/-- Modelled from the spec wording of section 4.4: the recommendation rules
as a concatenation of independent guarded blocks, in the fixed sequence
scatter / heatmap / line / area, histograms, bars, pie, box. -/
def suggestedChartsSpec (df : Table) : List Suggestion :=
  let num := numericCols df
  let cat := categoricalCols df
  (if 2 ≤ num.length then
      [scatterS (num.getD 0 "") (num.getD 1 ""), heatmapS num,
       lineS (num.getD 0 "") (num.getD 1 ""), areaS (num.getD 0 "") (num.getD 1 "")]
   else [])
  ++ (if 1 ≤ num.length then (num.take 3).map histS else [])
  ++ (if 1 ≤ cat.length then
        ((cat.take 2).filter (fun c => nuniqueCol df c ≤ 20)).map barS
      else [])
  ++ (if 1 ≤ cat.length ∧ nuniqueCol df (cat.getD 0 "") ≤ 10 then
        [pieS (cat.getD 0 "")]
      else [])
  ++ (if 1 ≤ cat.length ∧ 1 ≤ num.length then
        [boxS (cat.getD 0 "") (num.getD 0 "")]
      else [])

def numInsight (n : Nat) : String :=
  "Dataset contains " ++ toString n ++ " numeric columns suitable for statistical analysis."

def catInsight (n : Nat) : String :=
  "Dataset contains " ++ toString n ++ " categorical columns for grouping and segmentation."

def missingInsight (n : Nat) : String :=
  "Dataset has " ++ toString n ++ " missing values that may need attention."

/-- Lines 128-136: the three conditional `analysis['insights'].append(...)`
statements, in source order. -/
def insightsOf (df : Table) : List String :=
  let num := numericCols df
  let cat := categoricalCols df
  let i1 : List String := if 0 < num.length then [numInsight num.length] else []
  let i2 := if 0 < cat.length then i1 ++ [catInsight cat.length] else i1
  if 0 < (summaryOf df).missing_values then
    i2 ++ [missingInsight (summaryOf df).missing_values]
  else i2

/-- Modelled from the spec wording of step 5 of section 4.3: the insight list
as a concatenation of the three guarded sentences and nothing else. -/
def insightsSpec (df : Table) : List String :=
  (if 0 < (numericCols df).length then [numInsight (numericCols df).length] else [])
  ++ (if 0 < (categoricalCols df).length then [catInsight (categoricalCols df).length] else [])
  ++ (if 0 < (summaryOf df).missing_values then
        [missingInsight (summaryOf df).missing_values]
      else [])

structure Analysis where
  summary : Summary
  columns : List (String × ColInfo)
  suggested_charts : List Suggestion
  insights : List String

/-- Function `analyze_data` (lines 27-138). -/
noncomputable def analyze_data (df : Table) : Analysis :=
  { summary := summaryOf df
    columns := columnsOf df
    suggested_charts := suggestedCharts df
    insights := insightsOf df }

/-- A chart configuration supplied by the caller of `generate_chart`: an
arbitrary JSON object, so every key — including `type` — may be absent. -/
structure ChartConfig where
  type : Option String
  title : Option String
  column : Option String
  x_column : Option String
  y_column : Option String
  columns : Option (List String)
deriving DecidableEq

/-- Descending-count order used by `value_counts()`. -/
def vcLE (p q : Val × Nat) : Prop := q.2 ≤ p.2

instance : DecidableRel vcLE := fun p q => Nat.decLe q.2 p.2

instance : IsTotal (Val × Nat) vcLE := ⟨fun p q => Nat.le_total q.2 p.2⟩

instance : IsTrans (Val × Nat) vcLE := ⟨fun _ _ _ h1 h2 => Nat.le_trans h2 h1⟩

/-- Pandas `df[col].value_counts()`: each distinct non-missing value paired
with its occurrence count, ordered by descending count. -/
def valueCounts (cells : List (Option Val)) : List (Val × Nat) :=
  let vals := nonMissing cells
  List.insertionSort vcLE (vals.dedup.map (fun v => (v, vals.count v)))

/-- Both cells present and numeric: the pairing used by pandas `corr()`,
which correlates each pair of columns over their commonly valid rows. -/
def bothQ (p : Option Val × Option Val) : Option (ℚ × ℚ) :=
  match p.1.bind valNum, p.2.bind valNum with
  | some x, some y => some (x, y)
  | _, _ => none

def pairedCells (df : Table) (a b : String) : List (ℚ × ℚ) :=
  ((df.cellsOf a).zip (df.cellsOf b)).filterMap bothQ

/-- Centred product sum of two columns over their commonly valid rows: the
numerator of the Pearson correlation (and, on the diagonal, the squared
deviation sum whose vanishing is zero variance). -/
def covS (df : Table) (a b : String) : ℚ :=
  let ps := pairedCells df a b
  let mx := (ps.map Prod.fst).sum / (ps.length : ℚ)
  let my := (ps.map Prod.snd).sum / (ps.length : ℚ)
  (ps.map (fun p => (p.1 - mx) * (p.2 - my))).sum

/-- One entry of `numeric_df.corr()`: the Pearson coefficient, or `none`
modelling the NaN that pandas produces — and `PlotlyJSONEncoder` serializes
as null — when either column has zero variance on the paired rows. -/
noncomputable def corrEntry (df : Table) (a b : String) : Option ℝ :=
  if covS df a a = 0 ∨ covS df b b = 0 then none
  else
    some (((covS df a b : ℚ) : ℝ) /
      (Real.sqrt ((covS df a a : ℚ) : ℝ) * Real.sqrt ((covS df b b : ℚ) : ℝ)))

/-- Whether the named column exists and has a `select_dtypes(np.number)` dtype. -/
def numericName (df : Table) (c : String) : Bool :=
  match df.cols.find? (fun col => col.name == c) with
  | some col => isNumberDtype col.dtype
  | none => false

/-- Lines 170-172: `df[config['columns']].select_dtypes(include=[np.number]).corr()`,
a square matrix over the named columns that are numeric, in config order. -/
noncomputable def corrMatrixOf (df : Table) (cols : List String) : List (List (Option ℝ)) :=
  let nc := cols.filter (fun c => numericName df c)
  nc.map (fun a => nc.map (fun b => corrEntry df a b))

/-- The portable chart payload built by the `px.*` call of each branch and
serialized at line 197: the trace data and title per chart type. -/
inductive ChartDesc where
  | scatter (x y : String) (xs ys : List (Option Val)) (title : String)
  | histogram (c : String) (vals : List (Option Val)) (title : String)
  | bar (counts : List (Val × Nat)) (c : String) (title : String)
  | box (x y : String) (xs ys : List (Option Val)) (title : String)
  | heatmap (cols : List String) (matrix : List (List (Option ℝ))) (title : String)
  | line (x y : String) (xs ys : List (Option Val)) (title : String)
  | area (x y : String) (xs ys : List (Option Val)) (title : String)
  | pie (counts : List (Val × Nat)) (title : String)

/-- The body of the `try` block of `generate_chart` (lines 148-198): any
exception raised inside it — a missing config key, a column name absent from
the frame, or `px.imshow` on an empty correlation matrix — is caught by the
handler at line 200 and turned into the `None` return, modelled as `none`.
The final `else` branch (line 193) likewise returns `None`. -/
noncomputable def renderBody (df : Table) (cfg : ChartConfig) (ty : String) : Option ChartDesc :=
  if ty = "scatter" then
    match cfg.x_column, cfg.y_column, cfg.title with
    | some x, some y, some t =>
        if x ∈ df.names ∧ y ∈ df.names then
          some (ChartDesc.scatter x y (df.cellsOf x) (df.cellsOf y) t)
        else none
    | _, _, _ => none
  else if ty = "histogram" then
    match cfg.column, cfg.title with
    | some c, some t =>
        if c ∈ df.names then some (ChartDesc.histogram c (df.cellsOf c) t) else none
    | _, _ => none
  else if ty = "bar" then
    match cfg.column, cfg.title with
    | some c, some t =>
        if c ∈ df.names then some (ChartDesc.bar (valueCounts (df.cellsOf c)) c t) else none
    | _, _ => none
  else if ty = "box" then
    match cfg.x_column, cfg.y_column, cfg.title with
    | some x, some y, some t =>
        if x ∈ df.names ∧ y ∈ df.names then
          some (ChartDesc.box x y (df.cellsOf x) (df.cellsOf y) t)
        else none
    | _, _, _ => none
  else if ty = "correlation_heatmap" then
    match cfg.columns, cfg.title with
    | some cols, some t =>
        if ∀ c ∈ cols, c ∈ df.names then
          if cols.filter (fun c => numericName df c) = [] then none
          else
            some (ChartDesc.heatmap (cols.filter (fun c => numericName df c))
              (corrMatrixOf df cols) t)
        else none
    | _, _ => none
  else if ty = "line" then
    match cfg.x_column, cfg.y_column, cfg.title with
    | some x, some y, some t =>
        if x ∈ df.names ∧ y ∈ df.names then
          some (ChartDesc.line x y (df.cellsOf x) (df.cellsOf y) t)
        else none
    | _, _, _ => none
  else if ty = "area" then
    match cfg.x_column, cfg.y_column, cfg.title with
    | some x, some y, some t =>
        if x ∈ df.names ∧ y ∈ df.names then
          some (ChartDesc.area x y (df.cellsOf x) (df.cellsOf y) t)
        else none
    | _, _, _ => none
  else if ty = "pie" then
    match cfg.column, cfg.title with
    | some c, some t =>
        if c ∈ df.names then some (ChartDesc.pie (valueCounts (df.cellsOf c)) t) else none
    | _, _ => none
  else none

/-- Function `generate_chart` (lines 140-202).  The lookup
`chart_config['type']` at line 142 happens before the `try` block starts at
line 148, so a config without a `type` key raises `KeyError` out of the
function; every other failure is caught and becomes the `None` return. -/
noncomputable def generate_chart (df : Table) (cfg : ChartConfig) :
    Except String (Option ChartDesc) :=
  match cfg.type with
  | none => Except.error "KeyError: type"
  | some ty => Except.ok (renderBody df cfg ty)

section Helpers

/-- The sequentially built suggestion list equals the concatenation of the
five guarded rule blocks. -/
lemma suggestedCharts_eq_spec (df : Table) :
    suggestedCharts df = suggestedChartsSpec df := by
  simp only [suggestedCharts, suggestedChartsSpec]
  split_ifs <;> simp_all [List.append_assoc] <;> omega

lemma mem_numericCols_names {df : Table} {c : String} (h : c ∈ numericCols df) :
    c ∈ df.names := by
  simp only [numericCols, List.mem_map, List.mem_filter] at h
  obtain ⟨col, ⟨hcol, _⟩, rfl⟩ := h
  exact List.mem_map_of_mem Col.name hcol

lemma mem_categoricalCols_names {df : Table} {c : String} (h : c ∈ categoricalCols df) :
    c ∈ df.names := by
  simp only [categoricalCols, List.mem_map, List.mem_filter] at h
  obtain ⟨col, ⟨hcol, _⟩, rfl⟩ := h
  exact List.mem_map_of_mem Col.name hcol

lemma getD_mem_of_lt {l : List String} {i : Nat} (h : i < l.length) :
    l.getD i "" ∈ l := by
  rw [List.getD_eq_getElem l "" h]
  exact List.getElem_mem h

lemma isNumberDtype_iff (d : Dtype) :
    isNumberDtype d = true ↔ (d = Dtype.int64 ∨ d = Dtype.float64) := by
  cases d <;> simp [isNumberDtype]

end Helpers

/-- C1: for every table the suggestion list is exactly the concatenation of
the fixed rule blocks, in order — scatter, correlation heatmap, line and
area over the first two numeric columns when at least two numeric columns
exist; a histogram for each of the first three numeric columns when at
least one exists; the bar rule over the first two categorical columns and
the pie rule over the first; and finally the box rule when both a
categorical and a numeric column exist.  No other suggestion is emitted. -/
theorem c1_suggestion_rule_order (df : Table) :
    suggestedCharts df = suggestedChartsSpec df :=
  suggestedCharts_eq_spec df

/-- C5: the summary's total missing count equals the sum of the per-column
missing counts reported in the column profiles. -/
theorem c5_total_missing_is_sum (df : Table) :
    (summaryOf df).missing_values = ((columnsOf df).map (fun p => p.2.missing)).sum := by
  simp [summaryOf, columnsOf, colInfoOf, List.map_map, Function.comp_def]

/-- C7: the insight list is exactly the three guarded count sentences, in
order — numeric-column count, categorical-column count, missing-value
count — and nothing else. -/
theorem c7_insights_exact (df : Table) :
    insightsOf df = insightsSpec df := by
  simp only [insightsOf, insightsSpec]
  split_ifs <;> simp

/-- A table whose single column has the pandas `bool` dtype, as produced by
`read_csv` for a column of True/False values. -/
def tBool : Table := ⟨[⟨"flag", Dtype.boolean, [some (Val.vbool true), some (Val.vbool false)]⟩]⟩

/-- C6 counterexample: the column `flag` of `tBool` is a column of the
table, yet appears in neither `numeric_cols` nor `categorical_cols` —
the two lists do not partition the column names. -/
theorem c6_counterexample :
    "flag" ∈ tBool.names ∧ "flag" ∉ numericCols tBool ∧ "flag" ∉ categoricalCols tBool := by
  decide

/-- C6 amended: for a table with distinct column names, a column's name is
in `numeric_cols` exactly when its dtype is `int64` or `float64`, and in
`categorical_cols` exactly when its dtype is `object`; the two lists are
disjoint and each preserves the original table column order, but a column
of any other dtype (for example `bool`) appears in neither list. -/
theorem c6_partition_amended (df : Table) (hnd : df.names.Nodup) :
    (∀ c ∈ df.cols,
        (c.name ∈ numericCols df ↔ (c.dtype = Dtype.int64 ∨ c.dtype = Dtype.float64))
      ∧ (c.name ∈ categoricalCols df ↔ c.dtype = Dtype.obj))
  ∧ (∀ n, n ∈ numericCols df → n ∉ categoricalCols df)
  ∧ List.Sublist (numericCols df) df.names
  ∧ List.Sublist (categoricalCols df) df.names := by
  have hinj : ∀ a ∈ df.cols, ∀ b ∈ df.cols, a.name = b.name → a = b :=
    List.inj_on_of_nodup_map hnd
  refine ⟨fun c hc => ?_, fun n hn hcat => ?_, ?_, ?_⟩
  · constructor
    · constructor
      · intro h
        simp only [numericCols, List.mem_map, List.mem_filter] at h
        obtain ⟨col, ⟨hcol, hnum⟩, hname⟩ := h
        have heq : col = c := hinj col hcol c hc hname
        rw [← heq]
        exact (isNumberDtype_iff col.dtype).mp hnum
      · intro h
        simp only [numericCols, List.mem_map, List.mem_filter]
        exact ⟨c, ⟨hc, (isNumberDtype_iff c.dtype).mpr h⟩, rfl⟩
    · constructor
      · intro h
        simp only [categoricalCols, List.mem_map, List.mem_filter] at h
        obtain ⟨col, ⟨hcol, hobj⟩, hname⟩ := h
        have heq : col = c := hinj col hcol c hc hname
        rw [← heq]
        simpa using hobj
      · intro h
        simp only [categoricalCols, List.mem_map, List.mem_filter]
        exact ⟨c, ⟨hc, by simp [h]⟩, rfl⟩
  · simp only [numericCols, List.mem_map, List.mem_filter] at hn
    obtain ⟨col, ⟨hcol, hnum⟩, hname⟩ := hn
    simp only [categoricalCols, List.mem_map, List.mem_filter] at hcat
    obtain ⟨col2, ⟨hcol2, hobj⟩, hname2⟩ := hcat
    have heq : col2 = col := hinj col2 hcol2 col hcol (hname2.trans hname.symm)
    rw [heq] at hobj
    rcases (isNumberDtype_iff col.dtype).mp hnum with h | h <;> rw [h] at hobj <;> simp at hobj
  · exact (List.filter_sublist df.cols).map Col.name
  · exact (List.filter_sublist df.cols).map Col.name

lemma mem_ite_nil {α : Type} {p : Prop} [Decidable p] {a : α} {l : List α} :
    (a ∈ if p then l else []) ↔ p ∧ a ∈ l := by
  split_ifs with h <;> simp [h]

/-- C2: given at least one categorical column, each of the first two
categorical columns receives a bar suggestion exactly when its distinct
non-missing value count is at most 20, and a pie suggestion for the first
categorical column is emitted exactly when that count is at most 10. -/
theorem c2_cardinality_caps (df : Table) (hcat : 1 ≤ (categoricalCols df).length) :
    (∀ c ∈ (categoricalCols df).take 2,
        (barS c ∈ suggestedCharts df ↔ nuniqueCol df c ≤ 20))
  ∧ (pieS ((categoricalCols df).getD 0 "") ∈ suggestedCharts df
      ↔ nuniqueCol df ((categoricalCols df).getD 0 "") ≤ 10) := by
  rw [suggestedCharts_eq_spec]
  simp only [suggestedChartsSpec, List.mem_append, mem_ite_nil, List.mem_map,
    List.mem_filter, List.mem_singleton]
  constructor
  · intro c hc
    simp [barS, scatterS, heatmapS, lineS, areaS, histS, pieS, boxS, hcat, hc]
  · simp [pieS, barS, scatterS, heatmapS, lineS, areaS, histS, boxS, hcat]

/-- Bound column names of a suggestion: the `column`, `x_column` and
`y_column` values and the members of the `columns` list. -/
def bindingNames (s : Suggestion) : List String :=
  s.column.toList ++ s.x_column.toList ++ s.y_column.toList ++ (s.columns.getD [])

/-- C10: every suggestion emitted by profiling binds only column names of
the input table: its `column`, `x_column` and `y_column` values and every
member of its `columns` list name existing table columns. -/
theorem c10_suggestion_bindings_exist (df : Table) (s : Suggestion)
    (hs : s ∈ suggestedCharts df) :
    ∀ n ∈ bindingNames s, n ∈ df.names := by
  rw [suggestedCharts_eq_spec] at hs
  simp only [suggestedChartsSpec, List.mem_append, mem_ite_nil, List.mem_map,
    List.mem_filter, List.mem_singleton, List.mem_cons, List.not_mem_nil, or_false,
    or_assoc, and_assoc] at hs
  have hnum0 : 1 ≤ (numericCols df).length → (numericCols df).getD 0 "" ∈ df.names :=
    fun h => mem_numericCols_names (getD_mem_of_lt h)
  have hnum1 : 2 ≤ (numericCols df).length → (numericCols df).getD 1 "" ∈ df.names :=
    fun h => mem_numericCols_names (getD_mem_of_lt h)
  have hcat0 : 1 ≤ (categoricalCols df).length → (categoricalCols df).getD 0 "" ∈ df.names :=
    fun h => mem_categoricalCols_names (getD_mem_of_lt h)
  rcases hs with ⟨h2, hs⟩ | ⟨h1, hs⟩ | ⟨h1, hs⟩ | ⟨h1, h10, hs⟩ | ⟨hc1, hn1, hs⟩
  · rcases hs with rfl | rfl | rfl | rfl
    · intro n hn
      simp only [bindingNames, scatterS, Option.toList, Option.getD,
        List.mem_append, List.mem_cons, List.not_mem_nil, or_false, false_or] at hn
      rcases hn with rfl | rfl
      · exact hnum0 (by omega)
      · exact hnum1 h2
    · intro n hn
      simp only [bindingNames, heatmapS, Option.toList, Option.getD,
        List.mem_append, List.not_mem_nil, or_false, false_or, List.nil_append] at hn
      exact mem_numericCols_names hn
    · intro n hn
      simp only [bindingNames, lineS, Option.toList, Option.getD,
        List.mem_append, List.mem_cons, List.not_mem_nil, or_false, false_or] at hn
      rcases hn with rfl | rfl
      · exact hnum0 (by omega)
      · exact hnum1 h2
    · intro n hn
      simp only [bindingNames, areaS, Option.toList, Option.getD,
        List.mem_append, List.mem_cons, List.not_mem_nil, or_false, false_or] at hn
      rcases hn with rfl | rfl
      · exact hnum0 (by omega)
      · exact hnum1 h2
  · obtain ⟨u, hu, rfl⟩ := hs
    intro n hn
    simp only [bindingNames, histS, Option.toList, Option.getD,
      List.mem_append, List.mem_cons, List.not_mem_nil, or_false, false_or] at hn
    subst hn
    exact mem_numericCols_names (List.mem_of_mem_take hu)
  · obtain ⟨u, hu, hle, rfl⟩ := hs
    intro n hn
    simp only [bindingNames, barS, Option.toList, Option.getD,
      List.mem_append, List.mem_cons, List.not_mem_nil, or_false, false_or] at hn
    subst hn
    exact mem_categoricalCols_names (List.mem_of_mem_take hu)
  · rcases hs with rfl
    intro n hn
    simp only [bindingNames, pieS, Option.toList, Option.getD,
      List.mem_append, List.mem_cons, List.not_mem_nil, or_false, false_or] at hn
    subst hn
    exact hcat0 h1
  · rcases hs with rfl
    intro n hn
    simp only [bindingNames, boxS, Option.toList, Option.getD,
      List.mem_append, List.mem_cons, List.not_mem_nil, or_false, false_or] at hn
    rcases hn with rfl | rfl
    · exact hcat0 hc1
    · exact hnum0 hn1

/-- Well-formedness of a pandas column: a column whose dtype is numeric
holds only numeric non-missing values (pandas cannot store anything else in
an `int64` / `float64` column). -/
def wfCol (c : Col) : Prop :=
  isNumberDtype c.dtype = true → ∀ v ∈ nonMissing c.cells, (valNum v).isSome = true

instance (c : Col) : Decidable (wfCol c) := by
  unfold wfCol
  infer_instance

lemma dfMin_eq_none (vals : List ℚ) : dfMin vals = none ↔ vals = [] := by
  cases vals <;> simp [dfMin]

lemma dfMax_eq_none (vals : List ℚ) : dfMax vals = none ↔ vals = [] := by
  cases vals <;> simp [dfMax]

lemma dfMean_eq_none (vals : List ℚ) : dfMean vals = none ↔ vals = [] := by
  cases vals <;> simp [dfMean]

lemma dfStd_eq_none (vals : List ℚ) : dfStd vals = none ↔ vals.length ≤ 1 := by
  unfold dfStd
  split_ifs with h <;> simp [h]

lemma length_filterMap_of_isSome {α β : Type} (f : α → Option β) :
    ∀ l : List α, (∀ v ∈ l, (f v).isSome = true) → (l.filterMap f).length = l.length := by
  intro l
  induction l with
  | nil => simp
  | cons a t ih =>
      intro h
      have ha := h a (List.mem_cons_self a t)
      rcases hfa : f a with _ | b
      · rw [hfa] at ha
        simp at ha
      · rw [List.filterMap_cons_some hfa]
        simp only [List.length_cons]
        rw [ih (fun v hv => h v (List.mem_cons_of_mem a hv))]

lemma numValsOf_eq (cells : List (Option Val)) :
    numValsOf cells = (nonMissing cells).filterMap valNum := by
  unfold numValsOf nonMissing
  rw [List.filterMap_filterMap]
  rfl

lemma numValsOf_length {c : Col} (hwf : wfCol c) (hd : isNumberDtype c.dtype = true) :
    (numValsOf c.cells).length = (nonMissing c.cells).length := by
  rw [numValsOf_eq]
  exact length_filterMap_of_isSome valNum (nonMissing c.cells) (hwf hd)

/-- C3: exactly the numeric-dtype columns carry the min/max/mean/std block,
and within it each statistic is null exactly when undefined: min, max and
mean are null exactly when the column has zero non-missing values, and std
is null — not 0 — exactly when it has at most one non-missing value. -/
theorem c3_numeric_stats_policy (c : Col) (hwf : wfCol c) :
    ((colInfoOf c).stats ≠ none ↔ (c.dtype = Dtype.int64 ∨ c.dtype = Dtype.float64))
  ∧ (∀ s, (colInfoOf c).stats = some s →
      ((s.min = none ↔ (nonMissing c.cells).length = 0)
      ∧ (s.max = none ↔ (nonMissing c.cells).length = 0)
      ∧ (s.mean = none ↔ (nonMissing c.cells).length = 0)
      ∧ (s.std = none ↔ (nonMissing c.cells).length ≤ 1))) := by
  constructor
  · by_cases hd : c.dtype = Dtype.int64 ∨ c.dtype = Dtype.float64 <;> simp [colInfoOf, hd]
  · intro s hs
    simp only [colInfoOf] at hs
    split_ifs at hs with hd
    · have hnum : isNumberDtype c.dtype = true := (isNumberDtype_iff c.dtype).mpr hd
      have hlen := numValsOf_length hwf hnum
      obtain rfl := Option.some.inj hs
      refine ⟨?_, ?_, ?_, ?_⟩
      · rw [dfMin_eq_none, List.length_eq_zero.symm, hlen]
      · rw [dfMax_eq_none, List.length_eq_zero.symm, hlen]
      · rw [dfMean_eq_none, List.length_eq_zero.symm, hlen]
      · rw [dfStd_eq_none, hlen]

/-- C4 counterexample: a chart config without a `type` key (here one that
still carries a title) makes `generate_chart` raise `KeyError` to its
caller instead of returning a rendering failure: the `chart_config['type']`
lookup at line 142 sits outside the `try` block that starts at line 148. -/
theorem c4_counterexample :
    generate_chart tBool ⟨none, some "My Chart", none, none, none, none⟩
      = Except.error "KeyError: type" := rfl

/-- C4 amended: for every config that does contain a `type` key, rendering
never raises: it returns either a complete chart description or the bare
failure value `None` — which carries no reason string — and in particular a
scatter config missing `y_column`, a config with an unknown chart type, and
a bar config naming an absent column all yield the `None` failure with no
partial description. -/
theorem c4_render_no_unhandled (df : Table) (cfg : ChartConfig) (ty : String)
    (hty : cfg.type = some ty) :
    (∃ r, generate_chart df cfg = Except.ok r)
  ∧ (ty = "scatter" → cfg.y_column = none → generate_chart df cfg = Except.ok none)
  ∧ (ty ∉ ["scatter", "histogram", "bar", "box", "correlation_heatmap", "line", "area", "pie"] →
      generate_chart df cfg = Except.ok none)
  ∧ (ty = "bar" → ∀ c, cfg.column = some c → c ∉ df.names →
      generate_chart df cfg = Except.ok none) := by
  obtain ⟨oty, oti, oc, ox, oy, ocl⟩ := cfg
  simp only [ChartConfig.type] at hty
  subst hty
  refine ⟨⟨renderBody df ⟨some ty, oti, oc, ox, oy, ocl⟩ ty, rfl⟩, ?_, ?_, ?_⟩
  · rintro rfl h
    simp only [ChartConfig.y_column] at h
    subst h
    simp only [generate_chart, Except.ok.injEq]
    simp [renderBody]
  · intro h
    simp only [List.mem_cons, List.not_mem_nil, or_false, not_or] at h
    obtain ⟨h1, h2, h3, h4, h5, h6, h7, h8⟩ := h
    simp only [generate_chart, Except.ok.injEq]
    simp [renderBody, h1, h2, h3, h4, h5, h6, h7, h8]
  · rintro rfl c hcol hnot
    simp only [ChartConfig.column] at hcol
    subst hcol
    simp only [generate_chart, Except.ok.injEq]
    cases oti <;> simp [renderBody, hnot]

/-- The permutation between the sorted value-count list and the raw
distinct-value/count pairs. -/
lemma valueCounts_perm (cells : List (Option Val)) :
    (valueCounts cells).Perm
      ((nonMissing cells).dedup.map (fun v => (v, (nonMissing cells).count v))) :=
  List.perm_insertionSort vcLE _

/-- C8: a bar config on an existing column renders the column's value
counts — the distinct non-missing values paired with their occurrence
counts, with no value repeated, ordered by descending count — and a pie
config on the same column renders exactly the same value-count data. -/
theorem c8_bar_pie_value_counts (df : Table) (c t : String) (hc : c ∈ df.names) :
    generate_chart df ⟨some "bar", some t, some c, none, none, none⟩
      = Except.ok (some (ChartDesc.bar (valueCounts (df.cellsOf c)) c t))
  ∧ generate_chart df ⟨some "pie", some t, some c, none, none, none⟩
      = Except.ok (some (ChartDesc.pie (valueCounts (df.cellsOf c)) t))
  ∧ ((valueCounts (df.cellsOf c)).map Prod.fst).Nodup
  ∧ (∀ v k, ((v, k) ∈ valueCounts (df.cellsOf c) ↔
      (v ∈ nonMissing (df.cellsOf c) ∧ k = (nonMissing (df.cellsOf c)).count v)))
  ∧ List.Sorted vcLE (valueCounts (df.cellsOf c)) := by
  refine ⟨?_, ?_, ?_, ?_, ?_⟩
  · simp only [generate_chart, Except.ok.injEq]
    simp [renderBody, hc]
  · simp only [generate_chart, Except.ok.injEq]
    simp [renderBody, hc]
  · have hperm := (valueCounts_perm (df.cellsOf c)).map Prod.fst
    rw [List.Perm.nodup_iff hperm, List.map_map]
    have : (Prod.fst ∘ fun v => (v, (nonMissing (df.cellsOf c)).count v)) = id := rfl
    rw [this, List.map_id]
    exact List.nodup_dedup _
  · intro v k
    rw [(valueCounts_perm (df.cellsOf c)).mem_iff]
    simp only [List.mem_map, List.mem_dedup, Prod.mk.injEq]
    constructor
    · rintro ⟨u, hu, rfl, rfl⟩
      exact ⟨hu, rfl⟩
    · rintro ⟨hv, rfl⟩
      exact ⟨v, hv, rfl, rfl⟩
  · exact List.sorted_insertionSort vcLE _

lemma bothQ_swap (p : Option Val × Option Val) :
    bothQ p.swap = (bothQ p).map Prod.swap := by
  obtain ⟨a, b⟩ := p
  unfold bothQ
  cases hx : a.bind valNum <;> cases hy : b.bind valNum <;>
    simp [Prod.swap, hx, hy]

lemma pairedCells_comm (df : Table) (a b : String) :
    pairedCells df b a = (pairedCells df a b).map Prod.swap := by
  unfold pairedCells
  rw [← List.zip_swap (df.cellsOf a) (df.cellsOf b)]
  rw [List.filterMap_map, List.map_filterMap]
  congr 1
  funext p
  exact bothQ_swap p

lemma sum_map_mul_flip (l : List (ℚ × ℚ)) (A B : ℚ) :
    (l.map fun p => (p.2 - B) * (p.1 - A)).sum = (l.map fun p => (p.1 - A) * (p.2 - B)).sum := by
  induction l with
  | nil => rfl
  | cons p t ih => simp [ih, mul_comm]

lemma covS_comm (df : Table) (a b : String) : covS df a b = covS df b a := by
  simp only [covS, pairedCells_comm df a b, List.map_map, List.length_map,
    Function.comp_def, Prod.fst_swap, Prod.snd_swap]
  exact (sum_map_mul_flip _ _ _).symm

lemma zip_self_eq {l : List (Option Val)} : ∀ p ∈ l.zip l, p.1 = p.2 := by
  induction l with
  | nil => simp
  | cons a t ih =>
      intro p hp
      rw [List.zip_cons_cons, List.mem_cons] at hp
      rcases hp with rfl | hp
      · rfl
      · exact ih p hp

lemma pairedCells_self (df : Table) (c : String) :
    ∀ p ∈ pairedCells df c c, p.1 = p.2 := by
  intro p hp
  unfold pairedCells at hp
  rw [List.mem_filterMap] at hp
  obtain ⟨q, hq, hbq⟩ := hp
  have hqq : q.1 = q.2 := zip_self_eq q hq
  unfold bothQ at hbq
  rw [hqq] at hbq
  cases hx : q.2.bind valNum <;> rw [hx] at hbq
  · simp at hbq
  · simp only [Option.some.injEq] at hbq
    rw [← hbq]

lemma covS_self_nonneg (df : Table) (c : String) : 0 ≤ covS df c c := by
  unfold covS
  have hself := pairedCells_self df c
  have hmap : (pairedCells df c c).map Prod.snd = (pairedCells df c c).map Prod.fst :=
    List.map_congr_left (fun p hp => (hself p hp).symm)
  apply List.sum_nonneg
  intro x hx
  rw [List.mem_map] at hx
  obtain ⟨p, hp, rfl⟩ := hx
  rw [← hself p hp, hmap]
  exact mul_self_nonneg _

lemma corrEntry_comm (df : Table) (a b : String) : corrEntry df a b = corrEntry df b a := by
  unfold corrEntry
  by_cases ha : covS df a a = 0 <;> by_cases hb : covS df b b = 0
  · simp [ha, hb]
  · simp [ha, hb]
  · simp [ha, hb]
  · rw [if_neg (by tauto), if_neg (by tauto), covS_comm df a b, mul_comm]

lemma corrEntry_self (df : Table) (c : String) (h : covS df c c ≠ 0) :
    corrEntry df c c = some 1 := by
  unfold corrEntry
  rw [if_neg (by simp [h])]
  have h0 : (0 : ℝ) ≤ ((covS df c c : ℚ) : ℝ) := by exact_mod_cast covS_self_nonneg df c
  rw [Real.mul_self_sqrt h0, div_self (by exact_mod_cast h)]

/-- Entry access into the rendered matrix, defaulting to null out of range. -/
def mEntry (m : List (List (Option ℝ))) (i j : ℕ) : Option ℝ :=
  (m.getD i []).getD j none

lemma mEntry_corrMatrix (df : Table) (cols : List String) (i j : ℕ) :
    mEntry (corrMatrixOf df cols) i j =
      match (cols.filter (fun c => numericName df c))[i]?,
            (cols.filter (fun c => numericName df c))[j]? with
      | some a, some b => corrEntry df a b
      | _, _ => none := by
  simp only [mEntry, corrMatrixOf]
  rw [List.getD_eq_getElem?_getD, List.getD_eq_getElem?_getD, List.getElem?_map]
  cases hi : (cols.filter (fun c => numericName df c))[i]? with
  | none => simp
  | some a =>
      simp only [Option.map_some', Option.getD_some]
      rw [List.getElem?_map]
      cases hj : (cols.filter (fun c => numericName df c))[j]? with
      | none => simp
      | some b => simp

/-- C9: a correlation-heatmap config whose named columns all exist renders
the matrix over exactly the named columns that are numeric; the matrix is
symmetric, every diagonal entry of a column with nonzero variance is 1.0,
and every entry involving a zero-variance column is null — not 0 and not a
NaN placeholder. -/
theorem c9_correlation_heatmap (df : Table) (cols : List String) (t : String)
    (hsub : ∀ c ∈ cols, c ∈ df.names)
    (hne : cols.filter (fun c => numericName df c) ≠ []) :
    generate_chart df ⟨some "correlation_heatmap", some t, none, none, none, some cols⟩
      = Except.ok (some (ChartDesc.heatmap (cols.filter (fun c => numericName df c))
          (corrMatrixOf df cols) t))
  ∧ (∀ i j, mEntry (corrMatrixOf df cols) i j = mEntry (corrMatrixOf df cols) j i)
  ∧ (∀ c, covS df c c ≠ 0 → corrEntry df c c = some 1)
  ∧ (∀ a b, covS df a a = 0 ∨ covS df b b = 0 → corrEntry df a b = none) := by
  refine ⟨?_, ?_, fun c hc => corrEntry_self df c hc, fun a b h => ?_⟩
  · simp only [generate_chart, Except.ok.injEq]
    simp [renderBody, hsub, hne]
    exact hsub
  · intro i j
    rw [mEntry_corrMatrix, mEntry_corrMatrix]
    cases hi : (cols.filter (fun c => numericName df c))[i]? with
    | none =>
        cases hj : (cols.filter (fun c => numericName df c))[j]? with
        | none => rfl
        | some b => rfl
    | some a =>
        cases hj : (cols.filter (fun c => numericName df c))[j]? with
        | none => rfl
        | some b => exact corrEntry_comm df a b
  · unfold corrEntry
    rw [if_pos h]

/-- A concrete 21-row frame: a low-cardinality object column, an object
column with 21 distinct values, and an int64 column. -/
def wTab : Table :=
  ⟨[⟨"A", Dtype.obj,
      some (Val.vstr "x") :: some (Val.vstr "y") :: List.replicate 19 (some (Val.vstr "x"))⟩,
    ⟨"B", Dtype.obj, (List.range 21).map (fun i => some (Val.num (i : ℚ)))⟩,
    ⟨"n", Dtype.int64, (List.range 21).map (fun i => some (Val.num (i : ℚ)))⟩]⟩

theorem c2_cardinality_caps_witness :
    (∀ c ∈ (categoricalCols wTab).take 2,
        (barS c ∈ suggestedCharts wTab ↔ nuniqueCol wTab c ≤ 20))
  ∧ (pieS ((categoricalCols wTab).getD 0 "") ∈ suggestedCharts wTab
      ↔ nuniqueCol wTab ((categoricalCols wTab).getD 0 "") ≤ 10) :=
  c2_cardinality_caps wTab (by decide)

/-- A float64 column holding exactly one non-missing value. -/
def cOne : Col := ⟨"a", Dtype.float64, [some (Val.num 5), none]⟩

theorem c3_numeric_stats_policy_witness :
    ((colInfoOf cOne).stats ≠ none ↔ (cOne.dtype = Dtype.int64 ∨ cOne.dtype = Dtype.float64))
  ∧ (∀ s, (colInfoOf cOne).stats = some s →
      ((s.min = none ↔ (nonMissing cOne.cells).length = 0)
      ∧ (s.max = none ↔ (nonMissing cOne.cells).length = 0)
      ∧ (s.mean = none ↔ (nonMissing cOne.cells).length = 0)
      ∧ (s.std = none ↔ (nonMissing cOne.cells).length ≤ 1))) :=
  c3_numeric_stats_policy cOne (by decide)

theorem c4_render_no_unhandled_witness :
    (∃ r, generate_chart tBool ⟨some "scatter", some "T", none, some "flag", none, none⟩
        = Except.ok r)
  ∧ ("scatter" = "scatter" →
      (⟨some "scatter", some "T", none, some "flag", none, none⟩ : ChartConfig).y_column = none →
      generate_chart tBool ⟨some "scatter", some "T", none, some "flag", none, none⟩
        = Except.ok none)
  ∧ ("scatter" ∉ ["scatter", "histogram", "bar", "box", "correlation_heatmap", "line", "area", "pie"] →
      generate_chart tBool ⟨some "scatter", some "T", none, some "flag", none, none⟩
        = Except.ok none)
  ∧ ("scatter" = "bar" → ∀ c,
      (⟨some "scatter", some "T", none, some "flag", none, none⟩ : ChartConfig).column = some c →
      c ∉ tBool.names →
      generate_chart tBool ⟨some "scatter", some "T", none, some "flag", none, none⟩
        = Except.ok none) :=
  c4_render_no_unhandled tBool ⟨some "scatter", some "T", none, some "flag", none, none⟩
    "scatter" rfl

theorem c6_partition_amended_witness :
    (∀ c ∈ wTab.cols,
        (c.name ∈ numericCols wTab ↔ (c.dtype = Dtype.int64 ∨ c.dtype = Dtype.float64))
      ∧ (c.name ∈ categoricalCols wTab ↔ c.dtype = Dtype.obj))
  ∧ (∀ n, n ∈ numericCols wTab → n ∉ categoricalCols wTab)
  ∧ List.Sublist (numericCols wTab) wTab.names
  ∧ List.Sublist (categoricalCols wTab) wTab.names :=
  c6_partition_amended wTab (by decide)

theorem c8_bar_pie_value_counts_witness :
    generate_chart wTab ⟨some "bar", some "T", some "A", none, none, none⟩
      = Except.ok (some (ChartDesc.bar (valueCounts (wTab.cellsOf "A")) "A" "T"))
  ∧ generate_chart wTab ⟨some "pie", some "T", some "A", none, none, none⟩
      = Except.ok (some (ChartDesc.pie (valueCounts (wTab.cellsOf "A")) "T"))
  ∧ ((valueCounts (wTab.cellsOf "A")).map Prod.fst).Nodup
  ∧ (∀ v k, ((v, k) ∈ valueCounts (wTab.cellsOf "A") ↔
      (v ∈ nonMissing (wTab.cellsOf "A") ∧ k = (nonMissing (wTab.cellsOf "A")).count v)))
  ∧ List.Sorted vcLE (valueCounts (wTab.cellsOf "A")) :=
  c8_bar_pie_value_counts wTab "A" "T" (by decide)

/-- A frame of two numeric columns with nonzero variance. -/
def wNum : Table :=
  ⟨[⟨"x", Dtype.int64, [some (Val.num 1), some (Val.num 2), some (Val.num 3)]⟩,
    ⟨"y", Dtype.float64, [some (Val.num 1), some (Val.num 2), some (Val.num 4)]⟩]⟩

theorem c9_correlation_heatmap_witness :
    generate_chart wNum ⟨some "correlation_heatmap", some "T", none, none, none, some ["x", "y"]⟩
      = Except.ok (some (ChartDesc.heatmap (["x", "y"].filter (fun c => numericName wNum c))
          (corrMatrixOf wNum ["x", "y"]) "T"))
  ∧ (∀ i j, mEntry (corrMatrixOf wNum ["x", "y"]) i j = mEntry (corrMatrixOf wNum ["x", "y"]) j i)
  ∧ (∀ c, covS wNum c c ≠ 0 → corrEntry wNum c c = some 1)
  ∧ (∀ a b, covS wNum a a = 0 ∨ covS wNum b b = 0 → corrEntry wNum a b = none) :=
  c9_correlation_heatmap wNum ["x", "y"] "T" (by decide) (by decide)

theorem c10_suggestion_bindings_exist_witness :
    histS "n" ∈ suggestedCharts wTab ∧ "n" ∈ wTab.names :=
  ⟨by decide, c10_suggestion_bindings_exist wTab (histS "n") (by decide) "n" (by decide)⟩
